import Mathlib

/-!
Verification of the E-Redes telegraf input plugin (`eredes.go`).

Time is modelled the way Go's `time` package represents instants: an
absolute number of nanoseconds on a single timeline (here: since the Unix
epoch, timezone-free, i.e. UTC).  Go's civil-date <-> absolute-day
conversions (`time.Date`, `Time.Year/Month/Day`) are modelled by the
standard proleptic-Gregorian conversion pair `civilFromDays` /
`daysFromCivil`, which agree with Go's calendar arithmetic on every
representable instant.  Division on `Int` below is Euclidean division,
which coincides with floor division for the positive divisors used here.

The plugin's side effects (HTTP, the telegraf accumulator, the injected
parser) are modelled by passing the outcome of each external interaction
as an explicit argument: `makeRequest`'s transport result becomes an
`Except RequestError Json` value, the parser becomes a function
`Json → Except String (List Metric)`, and the accumulator becomes an
explicit `Accumulator` state threaded through `Gather`.
-/

namespace Eredes

def nsPerSecond : Int := 1000000000

def nsPerDay : Int := 86400 * nsPerSecond

/-- Civil (year, month, day) of an absolute day number (days since
1970-01-01), proleptic Gregorian; models Go's `Time.Year/Month/Day`
accessors used at `eredes.go` lines 166, 169 and 177. -/
def civilFromDays (z : Int) : Int × Int × Int :=
  let n := z + 719468
  let era := n / 146097
  let doe := n - era * 146097
  let yoe := (doe - doe / 1460 + doe / 36524 - doe / 146096) / 365
  let y := yoe + era * 400
  let doy := doe - (365 * yoe + yoe / 4 - yoe / 100)
  let mp := (5 * doy + 2) / 153
  let d := doy - (153 * mp + 2) / 5 + 1
  let m := if mp < 10 then mp + 3 else mp - 9
  (if m ≤ 2 then y + 1 else y, m, d)

/-- Absolute day number (days since 1970-01-01) of a civil (year, month,
day), proleptic Gregorian; models the calendar arithmetic of `time.Date`. -/
def daysFromCivil (y m d : Int) : Int :=
  let y1 := if m ≤ 2 then y - 1 else y
  let era := y1 / 400
  let yoe := y1 - era * 400
  let mp := if m > 2 then m - 3 else m + 9
  let doy := (153 * mp + 2) / 5 + d - 1
  let doe := yoe * 365 + yoe / 4 - yoe / 100 + doy
  era * 146097 + doe - 719468

/-- Absolute day number containing the instant `t` (ns). -/
def dayOf (t : Int) : Int := t / nsPerDay

/-- Seconds elapsed since midnight of the day containing `t`. -/
def secondsOfDay (t : Int) : Int := (t - dayOf t * nsPerDay) / nsPerSecond

/-- Go's `time.Date(y, m, d, hh, mi, ss, ns, loc)` as an absolute instant. -/
def goDate (y m d hh mi ss ns : Int) : Int :=
  daysFromCivil y m d * nsPerDay + ((hh * 60 + mi) * 60 + ss) * nsPerSecond + ns

def padLeft (w : Nat) (s : String) : String :=
  if s.length ≥ w then s else String.mk (List.replicate (w - s.length) '0') ++ s

def fmtInt (w : Nat) (n : Int) : String := padLeft w (toString n)

/-- Go's `Format("2006-01-02 15:04:05")` on an absolute instant. -/
def formatTime (t : Int) : String :=
  let day := dayOf t
  let tod := (t - day * nsPerDay) / nsPerSecond
  let c := civilFromDays day
  fmtInt 4 c.1 ++ "-" ++ fmtInt 2 c.2.1 ++ "-" ++ fmtInt 2 c.2.2 ++ " " ++
    fmtInt 2 (tod / 3600) ++ ":" ++ fmtInt 2 (tod % 3600 / 60) ++ ":" ++
    fmtInt 2 (tod % 60)

/-- Go's `24 * time.Hour` (`twentyFourHours` in `gatherUsages`), in ns. -/
def twentyFourHours : Int := 24 * 60 * 60 * nsPerSecond

/-- The `(start, end)` pair of strings produced by `gatherUsages`. -/
structure Window where
  start : String
  end_ : String
deriving DecidableEq, Repr

/-- `eredes.go` lines 176-177: `endDate := time.Now().Add(-twentyFourHours)`
then `endDate = time.Date(Y, M, D, 23, 59, 59, 59, loc)` (nanosecond
component 59, invisible to the seconds-precision format). -/
def endTimestamp (now : Int) : Int :=
  let endDate := now - twentyFourHours
  let c := civilFromDays (dayOf endDate)
  goDate c.1 c.2.1 c.2.2 23 59 59 59

/-- `eredes.go` lines 163-170: the start instant when no `start_date` is
configured.  The first branch fires when the interval is zero or below 24h
and subtracts only 24h; the second subtracts `historyInterval + 24h`; both
snap to 23:59:59 of the resulting day. -/
def startTimestamp (now historyInterval : Int) : Int :=
  if historyInterval = 0 ∨ historyInterval < twentyFourHours then
    let sd := now - twentyFourHours
    let c := civilFromDays (dayOf sd)
    goDate c.1 c.2.1 c.2.2 23 59 59 0
  else
    let sd := now - historyInterval - twentyFourHours
    let c := civilFromDays (dayOf sd)
    goDate c.1 c.2.1 c.2.2 23 59 59 0

/-- The window computation of `gatherUsages` (`eredes.go` lines 152-178):
`start` is the configured `start_date` verbatim when non-empty, otherwise
`startTimestamp` formatted; `end` is always `endTimestamp` formatted. -/
def computeWindow (now historyInterval : Int) (startDateCfg : String) : Window :=
  { start := if startDateCfg = "" then formatTime (startTimestamp now historyInterval) else startDateCfg,
    end_ := formatTime (endTimestamp now) }

/-- `now = 2021-01-10 12:00:00` of the spec scenario. -/
def now2021 : Int := goDate 2021 1 10 12 0 0 0

/-- `historyInterval = 168h` of the spec scenario, in ns. -/
def hours168 : Int := 168 * 60 * 60 * nsPerSecond

/-- One hour in ns (a below-24h history interval). -/
def oneHour : Int := 60 * 60 * nsPerSecond

/-! ### Proof-side helpers for the civil-date round trip -/

/-- Day count corrected for leap days (numerator of Hinnant's year-of-era
formula inside `civilFromDays`). -/
def ndoe (a : Int) : Int := a - a / 1460 + a / 36524 - a / 146096

/-- Year-of-era computed from a day-of-era, as in `civilFromDays`. -/
def yearFromDoe (a : Int) : Int := ndoe a / 365

/-- First day-of-era of a year-of-era `y` (valid for `0 ≤ y ≤ 400`). -/
def ys (y : Int) : Int := 365 * y + y / 4 - y / 100 + y / 400

/-! ### Model of the plugin's data types and request flow -/

/-- JSON values, modelling the parsed response bodies the plugin handles.
`num` keeps the raw literal text, the way `gjson` slices the source. -/
inductive Json where
  | null
  | boolean (b : Bool)
  | num (raw : String)
  | str (s : String)
  | arr (elems : List Json)
  | obj (fields : List (String × Json))

/-- First binding of `key` in a JSON object's field list. -/
def getKey : List (String × Json) → String → Option Json
  | [], _ => none
  | (k, v) :: rest, key => if k = key then some v else getKey rest key

/-- Plain dotted-path traversal, modelling `gjson.Get` for a path of simple
object keys such as `Body.Result.token`. -/
def getPath : Json → List String → Option Json
  | j, [] => some j
  | Json.obj fields, k :: rest =>
    match getKey fields k with
    | some v => getPath v rest
    | none => none
  | _, _ :: _ => none

/-- `gjson`'s `Result.String()`: empty for a missing path or JSON null,
the literal text for scalars.  (For composite values `gjson` returns the
raw slice; the plugin never extracts a composite, so they render empty
here.) -/
def gjsonString : Option Json → String
  | none => ""
  | some Json.null => ""
  | some (Json.boolean b) => if b then "true" else "false"
  | some (Json.num raw) => raw
  | some (Json.str s) => s
  | some (Json.arr _) => ""
  | some (Json.obj _) => ""

/-- Errors produced by `makeRequest`: a transport failure, or a non-success
status code carrying the code, its text and the accepted set
(`eredes.go` lines 310-315). -/
inductive RequestError where
  | transport (msg : String)
  | status (code : Int) (text : String) (expected : List Int)
deriving DecidableEq

/-- Rendering of a `RequestError` as the Go error string (`%s`). -/
def RequestError.message : RequestError → String
  | RequestError.transport m => m
  | RequestError.status c t e =>
    "received status code " ++ toString c ++ " (" ++ t ++ "), expected any value out of " ++ toString e

/-- An HTTP response as seen by `makeRequest`: status code plus the parsed
body. -/
structure HttpResponse where
  status : Int
  body : Json

/-- The success-status loop of `makeRequest` (`eredes.go` lines 302-308). -/
def checkSuccessStatus (successStatusCodes : List Int) (statusCode : Int) : Bool :=
  successStatusCodes.contains statusCode

/-- The status handling of `makeRequest` (`eredes.go` lines 302-322): a
response whose code is in the accepted set yields the body; any other code
yields an error carrying the code, the status text (`http.StatusText`,
passed in as `statusText`) and the accepted set. -/
def processResponse (successStatusCodes : List Int) (statusText : Int → String)
    (resp : HttpResponse) : Except RequestError Json :=
  if checkSuccessStatus successStatusCodes resp.status then Except.ok resp.body
  else Except.error (RequestError.status resp.status (statusText resp.status) successStatusCodes)

/-- The configuration fields of the `EREDES` struct (`eredes.go` lines
26-53; the TLS options and the HTTP client handle are connection plumbing
with no decision logic and are not modelled). -/
structure EREDES where
  Headers : List (String × String) := []
  SignInURL : String := ""
  UsageURL : String := ""
  Username : String := ""
  Password : String := ""
  Cpe : String := ""
  SuccessStatusCodes : List Int := []
  HistoryInterval : Int := 0
  StartDate : String := ""
  RunTestsOnly : Bool := false

/-- Default sign-in endpoint (`eredesSignIn`, `eredes.go` line 55). -/
def eredesSignIn : String := "https://online.e-redes.pt/listeners/api.php/ms/auth/auth/signin"

/-- Default usage endpoint (`eredesUsage`, `eredes.go` line 56). -/
def eredesUsage : String := "https://online.e-redes.pt/listeners/api.php/ms/reading/data-usage/sysgrid/get"

/-- `Init` (`eredes.go` lines 93-111): builds the HTTP client (not
modelled) and then assigns `SuccessStatusCodes = []int{200}`
unconditionally, line 109. -/
def Init (eredes : EREDES) : EREDES :=
  { eredes with SuccessStatusCodes := [200] }

/-- The JSON body of the usage request (`eredes.go` line 182). -/
def usagesRequestBody (cpe start end_ : String) : String :=
  "\x7b\"cpe\": \"" ++ cpe ++ "\", \"request_type\":\"3\",\"start_date\":\"" ++ start ++
    "\",\"end_date\":\"" ++ end_ ++ "\",\"wait\":true,\"formatted\":false\x7d"

/-- A POST request as handed to `makeRequest`: target URL, JSON body and
bearer token. -/
structure IssuedRequest where
  url : String
  requestBody : String
  token : String
deriving DecidableEq

/-- The usage URL computed at `eredes.go` lines 184-188: the configured
override, or the built-in default when unset. -/
def usageURLChosen (eredes : EREDES) : String :=
  if eredes.UsageURL = "" then eredesUsage else eredes.UsageURL

/-- The request `gatherUsages` actually issues (`eredes.go` lines
193-195): skipped entirely under `RunTestsOnly`; otherwise
`makeRequest(eredesUsage, usagesRequestBody, token)` — note line 195
passes the package-level default `eredesUsage`, not the computed
`usageURL`. -/
def usagesIssuedRequest (eredes : EREDES) (now : Int) (token : String) : Option IssuedRequest :=
  if eredes.RunTestsOnly then none
  else
    some { url := eredesUsage,
           requestBody := usagesRequestBody eredes.Cpe
             (computeWindow now eredes.HistoryInterval eredes.StartDate).start
             (computeWindow now eredes.HistoryInterval eredes.StartDate).end_,
           token := token }

/-- One metric as handed to the accumulator (name, fields, tags, time). -/
structure Metric where
  name : String
  fields : List (String × String)
  tags : List (String × String)
  time : Int

/-- The telegraf accumulator: the metrics added via `AddFields` and the
errors reported via `AddError`. -/
structure Accumulator where
  metrics : List Metric := []
  errors : List String := []

def Accumulator.addFields (acc : Accumulator) (m : Metric) : Accumulator :=
  { acc with metrics := acc.metrics ++ [m] }

def Accumulator.addError (acc : Accumulator) (e : String) : Accumulator :=
  { acc with errors := acc.errors ++ [e] }

/-- `signIn` (`eredes.go` lines 227-255): under `RunTestsOnly` it returns
the fixed sentinel token with no network call; otherwise it propagates the
request error, or extracts `Body.Result.token` from the response via
`gjson` (never an error, empty string when the path is absent).
`signInOutcome` is the result of the `makeRequest` call at line 243. -/
def signIn (eredes : EREDES) (signInOutcome : Except RequestError Json) : Except String String :=
  if eredes.RunTestsOnly then Except.ok "TOKEN1234567890"
  else
    match signInOutcome with
    | Except.error err => Except.error (RequestError.message err)
    | Except.ok response =>
      Except.ok (gjsonString (getPath response ["Body", "Result", "token"]))

/-- The fetch/parse/emit part of `gatherUsages` (`eredes.go` lines
193-219): skipped under `RunTestsOnly`; a request or parse error is
returned to the caller before any metric is added; on success every parsed
metric is added via `AddFields` and `nil` is returned.  `fetchOutcome` is
the result of the `makeRequest` call at line 195 and `parse` the injected
telegraf parser. -/
def gatherUsages (eredes : EREDES) (fetchOutcome : Except RequestError Json)
    (parse : Json → Except String (List Metric)) (acc : Accumulator) (token : String) :
    Accumulator × Option String :=
  if eredes.RunTestsOnly then (acc, none)
  else
    match fetchOutcome with
    | Except.error err => (acc, some (RequestError.message err))
    | Except.ok response =>
      match parse response with
      | Except.error err => (acc, some err)
      | Except.ok metrics => (metrics.foldl Accumulator.addFields acc, none)

/-- `Gather` (`eredes.go` lines 115-131): a sign-in failure is reported
via `AddError` with the `[signIn]: ` prefix and `nil` is returned; with a
non-empty token, a `gatherUsages` failure is reported via `AddError` with
the `Error in : ` prefix and `nil` is returned; with an empty token the
usage fetch is skipped; `Gather` always returns `nil`. -/
def Gather (eredes : EREDES) (signInOutcome fetchOutcome : Except RequestError Json)
    (parse : Json → Except String (List Metric)) (acc : Accumulator) :
    Accumulator × Option String :=
  match signIn eredes signInOutcome with
  | Except.error err => (acc.addError ("[signIn]: " ++ err), none)
  | Except.ok token =>
    if token ≠ "" then
      match gatherUsages eredes fetchOutcome parse acc token with
      | (acc1, some err) => (acc1.addError ("Error in : " ++ err), none)
      | (acc1, none) => (acc1, none)
    else (acc, none)

end Eredes

namespace Eredes

/-! ### The civil-date round trip -/

set_option maxRecDepth 4000 in
theorem yearFromDoe_ys_low : ∀ k : Nat, k < 400 → yearFromDoe (ys k) = k := by decide

set_option maxRecDepth 4000 in
theorem yearFromDoe_ys_high : ∀ k : Nat, k < 400 → yearFromDoe (ys (k + 1) - 1) = k := by decide

theorem ndoe_step (a : Int) : ndoe a ≤ ndoe (a + 1) := by
  unfold ndoe
  omega

theorem ndoe_mono {a b : Int} (h : a ≤ b) : ndoe a ≤ ndoe b := by
  have H : ∀ n : Nat, ndoe a ≤ ndoe (a + n) := by
    intro n
    induction n with
    | zero => simp
    | succ k ih =>
      have hcast : a + ((k + 1 : Nat) : Int) = a + (k : Nat) + 1 := by push_cast; ring
      rw [hcast]
      exact le_trans ih (ndoe_step (a + (k : Nat)))
  obtain ⟨n, hn⟩ : ∃ n : Nat, b = a + (n : Int) := ⟨(b - a).toNat, by omega⟩
  rw [hn]
  exact H n

theorem yearFromDoe_mono {a b : Int} (h : a ≤ b) : yearFromDoe a ≤ yearFromDoe b := by
  unfold yearFromDoe
  have := ndoe_mono h
  omega

theorem year_bracket (a : Int) (h0 : 0 ≤ a) (h1 : a ≤ 146096) :
    0 ≤ yearFromDoe a ∧ yearFromDoe a ≤ 399 ∧
    ys (yearFromDoe a) ≤ a ∧ a < ys (yearFromDoe a + 1) := by
  have hlo : yearFromDoe 0 ≤ yearFromDoe a := yearFromDoe_mono h0
  have hhi : yearFromDoe a ≤ yearFromDoe 146096 := yearFromDoe_mono h1
  have h399 : yearFromDoe 146096 = 399 := by decide
  have h00 : yearFromDoe 0 = 0 := by decide
  have hy0 : 0 ≤ yearFromDoe a := by omega
  have hy399 : yearFromDoe a ≤ 399 := by omega
  refine ⟨hy0, hy399, ?_, ?_⟩
  · by_contra hcon
    push_neg at hcon
    have hylb : 1 ≤ yearFromDoe a := by
      by_contra hy1
      push_neg at hy1
      have hz : yearFromDoe a = 0 := by omega
      rw [hz] at hcon
      have : ys 0 = 0 := by decide
      omega
    have key := yearFromDoe_ys_high (yearFromDoe a - 1).toNat (by omega)
    have hcast : ((yearFromDoe a - 1).toNat : Int) = yearFromDoe a - 1 := by omega
    rw [hcast] at key
    have harg : yearFromDoe a - 1 + 1 = yearFromDoe a := by omega
    rw [harg] at key
    have hstep : yearFromDoe a ≤ yearFromDoe (ys (yearFromDoe a) - 1) :=
      yearFromDoe_mono (by omega)
    rw [key] at hstep
    omega
  · by_contra hcon
    push_neg at hcon
    have hk1 : yearFromDoe a + 1 ≤ 399 := by
      by_contra hgt
      push_neg at hgt
      have h400 : yearFromDoe a = 399 := by omega
      have h146097 : ys 400 = 146097 := by decide
      rw [h400] at hcon
      have h401 : (399 : Int) + 1 = 400 := by norm_num
      rw [h401] at hcon
      omega
    have key := yearFromDoe_ys_low (yearFromDoe a + 1).toNat (by omega)
    have hcast : ((yearFromDoe a + 1).toNat : Int) = yearFromDoe a + 1 := by omega
    rw [hcast] at key
    have hstep : yearFromDoe (ys (yearFromDoe a + 1)) ≤ yearFromDoe a :=
      yearFromDoe_mono hcon
    rw [key] at hstep
    omega

set_option maxHeartbeats 1600000 in
theorem daysFromCivil_assemble (era yoe doy : Int)
    (hy0 : 0 ≤ yoe) (hy1 : yoe ≤ 399) (hd0 : 0 ≤ doy) (hd1 : doy ≤ 365) :
    daysFromCivil
      (if (if (5 * doy + 2) / 153 < 10 then (5 * doy + 2) / 153 + 3 else (5 * doy + 2) / 153 - 9) ≤ 2
        then yoe + era * 400 + 1 else yoe + era * 400)
      (if (5 * doy + 2) / 153 < 10 then (5 * doy + 2) / 153 + 3 else (5 * doy + 2) / 153 - 9)
      (doy - (153 * ((5 * doy + 2) / 153) + 2) / 5 + 1) =
    era * 146097 + (365 * yoe + yoe / 4 - yoe / 100) + doy - 719468 := by
  simp only [daysFromCivil]
  split_ifs <;> omega

set_option maxHeartbeats 1600000 in
theorem daysFromCivil_civilFromDays_aux (z n era doe yoe doy : Int)
    (hn : n = z + 719468) (hera : era = n / 146097) (hdoe : doe = n - era * 146097)
    (hyoe : yoe = yearFromDoe doe) (hdoy : doy = doe - (365 * yoe + yoe / 4 - yoe / 100)) :
    daysFromCivil
      (if (if (5 * doy + 2) / 153 < 10 then (5 * doy + 2) / 153 + 3 else (5 * doy + 2) / 153 - 9) ≤ 2
        then yoe + era * 400 + 1 else yoe + era * 400)
      (if (5 * doy + 2) / 153 < 10 then (5 * doy + 2) / 153 + 3 else (5 * doy + 2) / 153 - 9)
      (doy - (153 * ((5 * doy + 2) / 153) + 2) / 5 + 1) = z := by
  have hdoe0 : 0 ≤ doe := by omega
  have hdoe1 : doe ≤ 146096 := by omega
  have hbr := year_bracket doe hdoe0 hdoe1
  rw [← hyoe] at hbr
  simp only [ys] at hbr
  obtain ⟨hy0, hy1, hlo, hhi⟩ := hbr
  have hdoy0 : 0 ≤ doy := by omega
  have hcase : yoe ≤ 398 ∨ yoe = 399 := by omega
  have hf4 : (yoe + 1) / 4 ≤ yoe / 4 + 1 := by omega
  have hg100 : yoe / 100 ≤ (yoe + 1) / 100 := by omega
  have hdoy1 : doy ≤ 365 := by
    rcases hcase with hc | hc
    · have hh400 : (yoe + 1) / 400 = 0 := by omega
      omega
    · rw [hc] at hhi hdoy
      omega
  have ha := daysFromCivil_assemble era yoe doy hy0 hy1 hdoy0 hdoy1
  rw [ha]
  omega

/-- The civil conversions are mutually inverse: reassembling the civil
triple of any absolute day number yields that day number back. -/
theorem daysFromCivil_civilFromDays (z : Int) :
    daysFromCivil (civilFromDays z).1 (civilFromDays z).2.1 (civilFromDays z).2.2 = z :=
  daysFromCivil_civilFromDays_aux z _ _ _ _ _ rfl rfl rfl rfl rfl

end Eredes

namespace Eredes

/-! ### Day-level facts about the end of the window -/

theorem endTimestamp_eq (now : Int) :
    endTimestamp now = (dayOf now - 1) * nsPerDay + 86399 * nsPerSecond + 59 := by
  simp only [endTimestamp, goDate]
  rw [daysFromCivil_civilFromDays]
  simp only [dayOf, twentyFourHours, nsPerDay, nsPerSecond]
  omega

theorem dayOf_endTimestamp (now : Int) : dayOf (endTimestamp now) = dayOf now - 1 := by
  rw [endTimestamp_eq]
  simp only [dayOf, nsPerDay, nsPerSecond]
  omega

theorem secondsOfDay_endTimestamp (now : Int) : secondsOfDay (endTimestamp now) = 86399 := by
  rw [endTimestamp_eq]
  simp only [secondsOfDay, dayOf, nsPerDay, nsPerSecond]
  omega

end Eredes

namespace Eredes

/-! ### Claims -/

/-- Claim C1, counterexample: for now = 2021-01-10 12:00:00, a 168h history
interval and an empty start date, the code produces neither the spec
scenario's end (2021-01-08 23:59:59) nor its start (2021-01-01 23:59:59). -/
theorem window_scenario_168h_not_as_specified :
    ((computeWindow now2021 hours168 "").end_ == "2021-01-08 23:59:59") = false ∧
    ((computeWindow now2021 hours168 "").start == "2021-01-01 23:59:59") = false := by
  decide

/-- Claim C1 (amended): for now = 2021-01-10 12:00:00, historyInterval =
168h and an empty start date, the Window Calculator produces
end = 2021-01-09 23:59:59 and start = 2021-01-02 23:59:59. -/
theorem window_scenario_168h :
    (computeWindow now2021 hours168 "").end_ = "2021-01-09 23:59:59" ∧
    (computeWindow now2021 hours168 "").start = "2021-01-02 23:59:59" := by
  decide

/-- Claim C2, counterexample: at now = 2021-01-10 12:00:00 the computed end
falls on 2021-01-09, the calendar day immediately before now, refuting
"never on the day before now / always at least two days in the past". -/
theorem end_on_previous_day_at_scenario :
    (computeWindow now2021 hours168 "").end_ = "2021-01-09 23:59:59" ∧
    dayOf (endTimestamp now2021) = dayOf now2021 - 1 := by
  constructor
  · decide
  · decide

/-- Claim C2 (amended): for every now (and any interval and configured
start date), the computed end is the 23:59:59 instant of the calendar day
immediately before now — exactly one day in the past, never the same day
as now and never two or more days back. -/
theorem end_is_end_of_previous_day (now historyInterval : Int) (startDateCfg : String) :
    (computeWindow now historyInterval startDateCfg).end_ = formatTime (endTimestamp now) ∧
    dayOf (endTimestamp now) = dayOf now - 1 ∧
    secondsOfDay (endTimestamp now) = 86399 :=
  ⟨rfl, dayOf_endTimestamp now, secondsOfDay_endTimestamp now⟩

/-- Witness for C2 (amended) at the concrete scenario instant. -/
theorem end_is_end_of_previous_day_witness :
    (computeWindow now2021 hours168 "").end_ = formatTime (endTimestamp now2021) ∧
    dayOf (endTimestamp now2021) = dayOf now2021 - 1 ∧
    secondsOfDay (endTimestamp now2021) = 86399 :=
  end_is_end_of_previous_day now2021 hours168 ""

/-- Claim C3: at now = 2021-01-10 12:00:00 a 1h history interval yields
start = 2021-01-09 23:59:59 while a 24h interval yields
start = 2021-01-08 23:59:59 — the below-24h branch is not clamped to the
24h behaviour, contradicting the config doc ("Minimum is 24h") and the
code's own log message ("using 24h"). -/
theorem history_below_24h_not_clamped :
    (computeWindow now2021 oneHour "").start = "2021-01-09 23:59:59" ∧
    (computeWindow now2021 twentyFourHours "").start = "2021-01-08 23:59:59" ∧
    ((computeWindow now2021 oneHour "").start ==
      (computeWindow now2021 twentyFourHours "").start) = false := by
  refine ⟨by decide, by decide, by decide⟩

/-- Claim C4: with a configured usage URL override, the request
`gatherUsages` issues still targets the built-in default `eredesUsage`
(line 195 passes `eredesUsage`, not the computed `usageURL`), so the
override is ignored. -/
theorem usage_url_override_ignored :
    usageURLChosen { UsageURL := "https://example.org/custom-usage" } =
      "https://example.org/custom-usage" ∧
    (usagesIssuedRequest { UsageURL := "https://example.org/custom-usage" } now2021 "tok").map
      IssuedRequest.url = some eredesUsage ∧
    (eredesUsage == "https://example.org/custom-usage") = false := by
  refine ⟨rfl, rfl, by decide⟩

/-- Claim C5: `Init` overwrites a configured success-status set
[200, 204] with the hard-coded [200], so a 204 response afterwards is
rejected with an error carrying the actual code and its text, although
the configuration asked for 204 to be accepted. -/
theorem success_status_codes_overwritten :
    (Init { SuccessStatusCodes := [200, 204] }).SuccessStatusCodes = [200] ∧
    processResponse (Init { SuccessStatusCodes := [200, 204] }).SuccessStatusCodes
        (fun code => if code = 204 then "No Content" else "")
        { status := 204, body := Json.null } =
      Except.error (RequestError.status 204 "No Content" [200]) ∧
    processResponse (Init { SuccessStatusCodes := [200, 204] }).SuccessStatusCodes
        (fun code => if code = 204 then "No Content" else "")
        { status := 200, body := Json.null } = Except.ok Json.null := by
  refine ⟨rfl, rfl, rfl⟩

/-- Claim C6: a non-empty configured start date is used verbatim as the
window's start, and the history interval has no effect on it. -/
theorem start_date_used_verbatim (now historyInterval historyInterval2 : Int)
    (startDateCfg : String) (h : startDateCfg ≠ "") :
    (computeWindow now historyInterval startDateCfg).start = startDateCfg ∧
    (computeWindow now historyInterval startDateCfg).start =
      (computeWindow now historyInterval2 startDateCfg).start := by
  constructor
  · simp [computeWindow, h]
  · simp [computeWindow, h]

/-- Witness for C6 at a concrete configured start date. -/
theorem start_date_used_verbatim_witness :
    (computeWindow 0 0 "2020-12-31 23:59:59").start = "2020-12-31 23:59:59" :=
  (start_date_used_verbatim 0 0 1 "2020-12-31 23:59:59" (by decide)).1

/-- Claim C7: outside test mode, when the sign-in request succeeds,
`signIn` returns the string found at `Body.Result.token` in the response,
and returns the empty string with no error when the path is absent. -/
theorem signIn_token_extraction (eredes : EREDES) (he : eredes.RunTestsOnly = false)
    (body : Json) (s : String) :
    (getPath body ["Body", "Result", "token"] = some (Json.str s) →
      signIn eredes (Except.ok body) = Except.ok s) ∧
    (getPath body ["Body", "Result", "token"] = none →
      signIn eredes (Except.ok body) = Except.ok "") := by
  constructor
  · intro hp
    simp [signIn, he, hp, gjsonString]
  · intro hp
    simp [signIn, he, hp, gjsonString]

/-- Witness for C7: a response holding a token string, and one without the
path. -/
theorem signIn_token_extraction_witness :
    signIn {} (Except.ok (Json.obj
        [("Body", Json.obj [("Result", Json.obj [("token", Json.str "abc123")])])])) =
      Except.ok "abc123" ∧
    signIn {} (Except.ok (Json.obj [])) = Except.ok "" :=
  ⟨(signIn_token_extraction {} rfl
      (Json.obj [("Body", Json.obj [("Result", Json.obj [("token", Json.str "abc123")])])])
      "abc123").1 rfl,
   (signIn_token_extraction {} rfl (Json.obj []) "").2 rfl⟩

/-- Claim C8: `Gather` never returns an error; a sign-in failure is
reported through the accumulator's error list with the metrics untouched;
a `gatherUsages` failure is likewise reported, and a failing
`gatherUsages` never adds metrics (its accumulator is returned
unchanged). -/
theorem gather_never_returns_error (eredes : EREDES)
    (signInOutcome fetchOutcome : Except RequestError Json)
    (parse : Json → Except String (List Metric)) (acc : Accumulator) :
    (Gather eredes signInOutcome fetchOutcome parse acc).2 = none ∧
    (∀ msg, signIn eredes signInOutcome = Except.error msg →
      Gather eredes signInOutcome fetchOutcome parse acc =
        (acc.addError ("[signIn]: " ++ msg), none)) ∧
    (∀ token msg acc1, gatherUsages eredes fetchOutcome parse acc token = (acc1, some msg) →
      acc1 = acc) ∧
    (∀ token msg, signIn eredes signInOutcome = Except.ok token → ¬(token = "") →
      gatherUsages eredes fetchOutcome parse acc token = (acc, some msg) →
      Gather eredes signInOutcome fetchOutcome parse acc =
        (acc.addError ("Error in : " ++ msg), none)) := by
  refine ⟨?_, ?_, ?_, ?_⟩
  · unfold Gather
    cases hsi : signIn eredes signInOutcome with
    | error e => simp
    | ok token =>
      by_cases ht : token = ""
      · simp [ht]
      · simp only [ht, ne_eq, not_false_eq_true, if_true]
        cases hg : gatherUsages eredes fetchOutcome parse acc token with
        | mk acc1 err =>
          cases err with
          | none => simp
          | some msg => simp
  · intro msg hsi
    unfold Gather
    rw [hsi]
  · intro token msg acc1 hg
    unfold gatherUsages at hg
    by_cases hr : eredes.RunTestsOnly
    · simp [hr] at hg
    · cases hf : fetchOutcome with
      | error e =>
        rw [hf] at hg
        simp [hr] at hg
        exact hg.1.symm
      | ok response =>
        rw [hf] at hg
        simp only [hr] at hg
        simp at hg
        cases hp : parse response with
        | error e =>
          rw [hp] at hg
          simp at hg
          exact hg.1.symm
        | ok metrics =>
          rw [hp] at hg
          simp at hg
  · intro token msg hsi ht hg
    unfold Gather
    rw [hsi]
    simp only [ht, ne_eq, not_false_eq_true, if_true]
    rw [hg]

/-- Witness for C8: a failing sign-in is reported via the error list and
`Gather` returns no error. -/
theorem gather_never_returns_error_witness :
    Gather {} (Except.error (RequestError.transport "boom")) (Except.ok Json.null)
        (fun _ => Except.ok []) {} =
      (Accumulator.addError {} ("[signIn]: " ++ "boom"), none) :=
  (gather_never_returns_error {} (Except.error (RequestError.transport "boom"))
    (Except.ok Json.null) (fun _ => Except.ok []) {}).2.1 "boom" rfl

/-- Claim C9: with the tests-only flag set, `signIn` returns the fixed
sentinel token whatever the network outcome would be, `gatherUsages`
issues no usage request, and the cycle leaves the accumulator untouched
(no metrics, no errors) while returning no error. -/
theorem run_tests_only_cycle (eredes : EREDES) (he : eredes.RunTestsOnly = true)
    (signInOutcome fetchOutcome : Except RequestError Json)
    (parse : Json → Except String (List Metric)) (acc : Accumulator) (now : Int)
    (token : String) :
    signIn eredes signInOutcome = Except.ok "TOKEN1234567890" ∧
    usagesIssuedRequest eredes now token = none ∧
    Gather eredes signInOutcome fetchOutcome parse acc = (acc, none) := by
  refine ⟨by simp [signIn, he], by simp [usagesIssuedRequest, he], ?_⟩
  simp [Gather, signIn, he, gatherUsages]

/-- Witness for C9 at a concrete test-mode configuration whose network is
down. -/
theorem run_tests_only_cycle_witness :
    signIn { RunTestsOnly := true } (Except.error (RequestError.transport "down")) =
      Except.ok "TOKEN1234567890" ∧
    usagesIssuedRequest { RunTestsOnly := true } now2021 "TOKEN1234567890" = none ∧
    Gather { RunTestsOnly := true } (Except.error (RequestError.transport "down"))
      (Except.ok Json.null) (fun _ => Except.ok []) {} = ({}, none) :=
  run_tests_only_cycle { RunTestsOnly := true } rfl
    (Except.error (RequestError.transport "down")) (Except.ok Json.null)
    (fun _ => Except.ok []) {} now2021 "TOKEN1234567890"

/-- Claim C10: when `signIn` succeeds with an empty token, `Gather` skips
the usage fetch, adds no metric, reports no error and returns nil — the
accumulator comes back unchanged whatever the fetch outcome or parser
would have produced. -/
theorem empty_token_skips_cycle (eredes : EREDES)
    (signInOutcome fetchOutcome : Except RequestError Json)
    (parse : Json → Except String (List Metric)) (acc : Accumulator)
    (ht : signIn eredes signInOutcome = Except.ok "") :
    Gather eredes signInOutcome fetchOutcome parse acc = (acc, none) := by
  unfold Gather
  rw [ht]
  simp

/-- Witness for C10: a sign-in response without the token path yields an
empty token and a silent cycle. -/
theorem empty_token_skips_cycle_witness :
    Gather {} (Except.ok (Json.obj [])) (Except.ok Json.null)
      (fun _ => Except.ok []) {} = ({}, none) :=
  empty_token_skips_cycle {} (Except.ok (Json.obj [])) (Except.ok Json.null)
    (fun _ => Except.ok []) {} rfl

end Eredes
